import Mathlib

/-!
Verification of the connection-lifecycle and command-dispatch core of the
`hilighting_ble` Home Assistant integration
(`custom_components/hilighting_ble/hilightingble.py`).

The development shallowly embeds the source file:

* the per-command packet construction and optimistic reported-state updates
  (`turn_on`, `turn_off`, `set_rgb_color`, `set_brightness`, `set_effect`,
  `set_effect_speed`);
* the retry wrapper `retry_bluetooth_connection_error` (3 attempts, 250 ms
  constant backoff, `BleakNotFoundError` never retried);
* the numeric byte mappings, including a faithful integer model of the
  IEEE-754 double arithmetic used by `int(brightness * 0.06)` and
  `int(speed * 2.55)`;
* the disconnect path `_execute_disconnect` over the connection-layer state;
* an interleaving semantics of `_ensure_connected`'s double-checked locking.
-/

/-! ## Integer model of the Python float computations

Python evaluates `int(x * 0.06)` and `int(x * 2.55)` in IEEE-754 binary64:
the literal is the nearest double to the decimal, the product is rounded to
nearest-even at 53 significand bits, and `int` truncates toward zero.  For a
natural `x` this is modelled exactly on integers: the double literal is
`mant / 2 ^ shift` with `mant` its exact scaled significand, the product
`x * mant` is rounded to 53 bits (round to nearest, ties to even), and the
result is divided by `2 ^ shift` (truncation).
-/

/-- Number of binary digits of `n`, with structural fuel (64 bits suffice for
every number appearing in these computations). -/
def bitlenAux : Nat → Nat → Nat
  | 0, _ => 0
  | fuel + 1, n => if n = 0 then 0 else bitlenAux fuel (n / 2) + 1

/-- Number of binary digits of `n`. -/
def bitlen (n : Nat) : Nat := bitlenAux 64 n

/-- `trunc (roundDouble (x * (mant / 2 ^ shift)))`: the exact value of the
Python expression `int(x * c)` where the double constant `c` has exact value
`mant / 2 ^ shift`.  The product `x * mant` is rounded to a 53-bit
significand, ties to even, then truncated by `2 ^ shift`. -/
def rneTruncMul (mant shift x : Nat) : Nat :=
  let p := x * mant
  if p = 0 then 0
  else
    let L := bitlen p
    if L ≤ 53 then p / 2 ^ shift
    else
      let drop := L - 53
      let q := p / 2 ^ drop
      let r := p % 2 ^ drop
      let half := 2 ^ (drop - 1)
      let q2 := if half < r ∨ (r = half ∧ q % 2 = 1) then q + 1 else q
      q2 * 2 ^ drop / 2 ^ shift

/-- Exact scaled significand of the double literal `2.55`:
`(2.55 : float) = 2871044762448691 / 2 ^ 50`. -/
def DOUBLE_2_55_MANT : Nat := 2871044762448691

/-- Exact scaled significand of the double literal `0.06`:
`(0.06 : float) = 1080863910568919 / 2 ^ 54`. -/
def DOUBLE_0_06_MANT : Nat := 1080863910568919

/-- `min(max(int(speed * 2.55), 0), 255)` from `set_effect_speed`
(line 177 of the source); the `max` against 0 is vacuous on naturals, as it
is on the nonnegative inputs of the claims. -/
def speed_byte (speed : Nat) : Nat :=
  min (max (rneTruncMul DOUBLE_2_55_MANT 50 speed) 0) 255

/-- `min(int(brightness * 0.06), 0x0f)` from `set_brightness`
(line 161 of the source). -/
def brightness_byte (brightness : Nat) : Nat :=
  min (rneTruncMul DOUBLE_0_06_MANT 54 brightness) 15

/-- The spec formula for the effect-speed wire byte,
`clamp(round(speed * 2.55), 0, 255)` with exact arithmetic
(`round(51 s / 20) = ⌊(51 s + 10) / 20⌋`), stated for comparison with the
source computation `speed_byte`. -/
def spec_speed_byte (s : Nat) : Nat := min (max ((51 * s + 10) / 20) 0) 255

/-! ## Effect table and reported-state model -/

/-- `EFFECT_MAP = {f"Effect {i}": i for i in range(10)}` (line 26). -/
def EFFECT_MAP : List (String × Nat) :=
  (List.range 10).map (fun i => ("Effect " ++ toString i, i))

/-- `EFFECT_OFF` from `homeassistant.components.light`: the string "off". -/
def EFFECT_OFF : String := "off"

/-- `ColorMode.RGB` from `homeassistant.components.light`: the string "rgb". -/
def COLOR_MODE_RGB : String := "rgb"

/-- The optimistic reported device state held by `HILIGHTINGInstance`:
`_is_on`, `_rgb_color`, `_brightness`, `_effect`, `_color_mode`
(lines 91–95). -/
structure DeviceState where
  is_on : Bool
  rgb_color : Nat × Nat × Nat
  brightness : Nat
  effect : String
  color_mode : String
deriving DecidableEq

/-- The initial reported state set by `__init__` (lines 91–95). -/
def initialState : DeviceState :=
  { is_on := false
    rgb_color := (255, 255, 255)
    brightness := 255
    effect := EFFECT_OFF
    color_mode := COLOR_MODE_RGB }

/-- The exception categories distinguished by the retry wrapper:
`BleakNotFoundError` (permanent addressing failure), `BleakDBusError`
(the distinguished bus-error subclass, `RETRY_BACKOFF_EXCEPTIONS`), and the
remaining recognized transient errors (`BLEAK_EXCEPTIONS`). -/
inductive BleError where
  | notFound
  | dbus
  | bleak
deriving DecidableEq

/-- `self._turn_on_cmd = bytearray.fromhex("55 01 02 01")` (line 102). -/
def turn_on_cmd : List Nat := [0x55, 0x01, 0x02, 0x01]

/-- `self._turn_off_cmd = bytearray.fromhex("55 01 02 00")` (line 103). -/
def turn_off_cmd : List Nat := [0x55, 0x01, 0x02, 0x00]

/-- A public command invocation on `HILIGHTINGInstance`, with its argument. -/
inductive Command where
  | turnOn
  | turnOff
  | setColor (rgb : Nat × Nat × Nat)
  | setBrightness (b : Nat)
  | setEffect (name : String)
  | setEffectSpeed (sp : Nat)
deriving DecidableEq

/-- One `await self._write(pkt)` call followed by the statements after it.
`w = none` means the write is acknowledged: the packet is recorded and the
post-write state update `onOk` runs.  `w = some e` means `_write` raised
(from `_ensure_connected` or `write_gatt_char`): nothing is recorded, the
post-write update does not run, and the error propagates. -/
def writeStep (s : DeviceState) (pkt : List Nat) (w : Option BleError)
    (onOk : DeviceState → DeviceState) :
    DeviceState × List (List Nat) × Option BleError :=
  match w with
  | none => (onOk s, [pkt], none)
  | some e => (s, [], some e)

/-- One attempt of the body of a command method (the decorated coroutine,
lines 141–179), given the outcome `w` of its `_write` call.  Returns the
reported state after the attempt, the packets successfully written, and the
error the attempt raised, if any.  Statements placed before `await
self._write(...)` in the source (the `_rgb_color` assignment on line 153 and
the `_brightness` assignment on line 160) execute before the write and hence
also on a failing attempt. -/
def runAttempt : Command → DeviceState → Option BleError →
    DeviceState × List (List Nat) × Option BleError
  | .turnOn, s, w =>
      writeStep s turn_on_cmd w (fun s0 => { s0 with is_on := true })
  | .turnOff, s, w =>
      writeStep s turn_off_cmd w (fun s0 => { s0 with is_on := false })
  | .setColor rgb, s, w =>
      let s1 := { s with rgb_color := rgb }
      writeStep s1 [0x55, 0x07, 0x01, rgb.1, rgb.2.1, rgb.2.2] w
        (fun s0 => { s0 with effect := EFFECT_OFF })
  | .setBrightness b, s, w =>
      let s1 := { s with brightness := b }
      writeStep s1 [0x55, 0x03, 0x01, 0xff, brightness_byte b] w (fun s0 => s0)
  | .setEffect name, s, w =>
      match EFFECT_MAP.lookup name with
      | none => (s, [], none)
      | some effectId =>
          writeStep s [0x55, 0x04, 0x01, effectId] w
            (fun s0 => { s0 with effect := name })
  | .setEffectSpeed sp, s, w =>
      writeStep s [0x55, 0x04, 0x04, speed_byte sp] w (fun s0 => s0)

/-! ## The retry wrapper `retry_bluetooth_connection_error` (lines 40–60) -/

/-- `DEFAULT_ATTEMPTS = 3` (line 34). -/
def DEFAULT_ATTEMPTS : Nat := 3

/-- `BLEAK_BACKOFF_TIME = 0.25` seconds (line 35), in milliseconds. -/
def BLEAK_BACKOFF_TIME_MS : Nat := 250

/-- How a wrapped command invocation ended: the wrapped coroutine returned,
an exception was re-raised, or the `for` loop ran out of iterations
(unreachable in the source, but represented faithfully: Python would then
return `None`). -/
inductive RetryOutcome where
  | success
  | raised (e : BleError)
  | fellThrough
deriving DecidableEq

/-- Observable trace of one wrapped command invocation: the reported state
it leaves, the packets successfully written, the number of attempts started,
the list of backoff sleeps performed (each entry a duration in ms), and how
it ended. -/
structure CmdTrace where
  state : DeviceState
  written : List (List Nat)
  attempts : Nat
  sleeps : List Nat
  outcome : RetryOutcome
deriving DecidableEq

/-- The loop of `_async_wrap` (lines 42–58): `remaining` iterations are left
and `attempt` is the current index.  Each attempt runs the whole wrapped
coroutine from the current state, with `werr attempt` as the outcome of its
`_write` call.  `BleakNotFoundError` is re-raised at once; a transient error
on the last attempt (`attempt == DEFAULT_ATTEMPTS - 1`) is re-raised, and
otherwise a 250 ms backoff sleep precedes the next attempt. -/
def runCmdAux (c : Command) (werr : Nat → Option BleError) :
    Nat → Nat → List Nat → DeviceState → List (List Nat) → CmdTrace
  | 0, attempt, sleeps, s, wr => ⟨s, wr, attempt, sleeps, .fellThrough⟩
  | remaining + 1, attempt, sleeps, s, wr =>
      let r := runAttempt c s (werr attempt)
      match r.2.2 with
      | none => ⟨r.1, wr ++ r.2.1, attempt + 1, sleeps, .success⟩
      | some .notFound => ⟨r.1, wr ++ r.2.1, attempt + 1, sleeps, .raised .notFound⟩
      | some e =>
          if attempt == DEFAULT_ATTEMPTS - 1 then
            ⟨r.1, wr ++ r.2.1, attempt + 1, sleeps, .raised e⟩
          else
            runCmdAux c werr remaining (attempt + 1)
              (sleeps ++ [BLEAK_BACKOFF_TIME_MS]) r.1 (wr ++ r.2.1)

/-- A full decorated command invocation: `for attempt in
range(DEFAULT_ATTEMPTS)` starting from reported state `s`, where
`werr i` is the outcome of `_write` on attempt `i`. -/
def runCmd (c : Command) (werr : Nat → Option BleError) (s : DeviceState) :
    CmdTrace :=
  runCmdAux c werr DEFAULT_ATTEMPTS 0 [] s []

/-- Whether an invocation reaches its `_write` call: every command does,
except `set_effect` with a name outside `EFFECT_MAP`, which returns early
(lines 167–169). -/
def reachesWrite : Command → Bool
  | .setEffect name => (EFFECT_MAP.lookup name).isSome
  | _ => true

/-- The reported state an attempt has already produced when its `_write`
call raises: the statements before the write have run.  `set_rgb_color`
assigns `_rgb_color` (line 153) and `set_brightness` assigns `_brightness`
(line 160) before writing; every other command mutates nothing before the
write. -/
def preWriteState : Command → DeviceState → DeviceState
  | .setColor rgb, s => { s with rgb_color := rgb }
  | .setBrightness b, s => { s with brightness := b }
  | _, s => s

/-! ## Connection-layer state: `_execute_disconnect` and
`_resolve_characteristics` -/

/-- `WRITE_CHARACTERISTIC_UUID` (line 30). -/
def WRITE_CHARACTERISTIC_UUID : String := "6e400002-b5a3-f393-e0a9-e50e24dcca9e"

/-- `FIRMWARE_REVISION_UUID` (line 31). -/
def FIRMWARE_REVISION_UUID : String := "00002a26-0000-1000-8000-00805f9b34fb"

/-- `SW_NUMBER_UUID` (line 32). -/
def SW_NUMBER_UUID : String := "00002a28-0000-1000-8000-00805f9b34fb"

/-- `MANUFACTURER_NAME_UUID` (line 33). -/
def MANUFACTURER_NAME_UUID : String := "00002a29-0000-1000-8000-00805f9b34fb"

/-- The connection-layer fields of `HILIGHTINGInstance`: `_client` (modelled
as `some isConnected` when a client object is held), `_write_uuid`,
`_manufacturer_name_char`, `_firmware_revision_char`, `_model_number_char`
(characteristic references, modelled as opaque handles), and
`_expected_disconnect`. -/
structure LinkState where
  client : Option Bool
  write_uuid : Option Nat
  manufacturer_name_char : Option Nat
  firmware_revision_char : Option Nat
  model_number_char : Option Nat
  expected_disconnect : Bool
deriving DecidableEq

/-- `_resolve_characteristics(services)` (lines 214–219): look up the four
characteristics in the service catalog, store all four references, and
report whether all resolved. -/
def resolve_characteristics (services : String → Option Nat)
    (s : LinkState) : LinkState × Bool :=
  let s1 := { s with
    write_uuid := services WRITE_CHARACTERISTIC_UUID
    manufacturer_name_char := services MANUFACTURER_NAME_UUID
    firmware_revision_char := services FIRMWARE_REVISION_UUID
    model_number_char := services SW_NUMBER_UUID }
  (s1, s1.write_uuid.isSome && s1.manufacturer_name_char.isSome &&
    s1.firmware_revision_char.isSome && s1.model_number_char.isSome)

/-- `_execute_disconnect` (lines 238–245): under the connect lock, if a
client is held and connected, mark the disconnect expected and disconnect
it; then set `_client = None` and `_write_uuid = None`.  The three info
characteristic fields are not touched. -/
def execute_disconnect (s : LinkState) : LinkState :=
  let s1 :=
    match s.client with
    | some true => { s with expected_disconnect := true }
    | _ => s
  { s1 with client := none, write_uuid := none }

/-! ## Interleaving semantics of `_ensure_connected` (lines 185–212)

`n` tasks concurrently run `_ensure_connected` against one instance that
starts disconnected.  Each task's control point tracks its position in the
method; the shared state holds the async lock (`_connect_lock`), whether a
connected client is stored (`_client and _client.is_connected`), and a
counter of `establish_connection` calls.  Steps are the atomic actions
between await points. -/

/-- Control points of one task inside `_ensure_connected`:
before the unlocked fast-path check (line 186); waiting on
`async with self._connect_lock` (line 190); at the locked re-check
(line 191); inside `establish_connection` (lines 196–203); after storing
the connected client (lines 205–212); returned. -/
inductive TPC where
  | start
  | waitLock
  | recheck
  | connecting
  | haveClient
  | done
deriving DecidableEq

/-- Shared state of an instance with `n` concurrent callers of
`_ensure_connected`: the holder of `_connect_lock` (if held), whether
`self._client` is set and connected, how many `establish_connection` calls
have been started, and each task's control point. -/
structure CState (n : Nat) where
  lock : Option (Fin n)
  client : Bool
  connects : Nat
  pcs : Fin n → TPC

/-- One atomic step of one task inside `_ensure_connected`. -/
inductive CStep (n : Nat) : CState n → CState n → Prop where
  | fastHit (s : CState n) (i : Fin n) :
      s.pcs i = .start → s.client = true →
      CStep n s { s with pcs := Function.update s.pcs i .done }
  | fastMiss (s : CState n) (i : Fin n) :
      s.pcs i = .start → s.client = false →
      CStep n s { s with pcs := Function.update s.pcs i .waitLock }
  | acquire (s : CState n) (i : Fin n) :
      s.pcs i = .waitLock → s.lock = none →
      CStep n s { s with lock := some i, pcs := Function.update s.pcs i .recheck }
  | recheckHit (s : CState n) (i : Fin n) :
      s.pcs i = .recheck → s.client = true →
      CStep n s { s with lock := none, pcs := Function.update s.pcs i .done }
  | recheckMiss (s : CState n) (i : Fin n) :
      s.pcs i = .recheck → s.client = false →
      CStep n s
        { s with connects := s.connects + 1, pcs := Function.update s.pcs i .connecting }
  | connected (s : CState n) (i : Fin n) :
      s.pcs i = .connecting →
      CStep n s { s with client := true, pcs := Function.update s.pcs i .haveClient }
  | release (s : CState n) (i : Fin n) :
      s.pcs i = .haveClient →
      CStep n s { s with lock := none, pcs := Function.update s.pcs i .done }

/-- Initial shared state: disconnected, lock free, no
`establish_connection` call yet, every task about to enter
`_ensure_connected`. -/
def cinit (n : Nat) : CState n :=
  { lock := none, client := false, connects := 0, pcs := fun _ => .start }

/-- The inductive invariant of the double-checked-locking protocol. -/
def connInv {n : Nat} (s : CState n) : Prop :=
  s.connects ≤ 1 ∧
  (s.client = true → s.connects = 1) ∧
  (∀ i, s.pcs i = .recheck ∨ s.pcs i = .connecting ∨ s.pcs i = .haveClient →
    s.lock = some i) ∧
  (∀ i, s.pcs i = .connecting → s.client = false ∧ s.connects = 1) ∧
  (∀ i, s.pcs i = .haveClient → s.client = true) ∧
  (s.connects = 1 → s.client = true ∨ ∃ j, s.pcs j = .connecting) ∧
  (∀ i, s.pcs i = .done → s.connects = 1)

/-! ## Helper lemmas on the attempt and retry layer -/

/-- When a command reaches its `_write` call, the error an attempt raises is
exactly the error of that `_write` call. -/
theorem runAttempt_err (c : Command) (s : DeviceState) (w : Option BleError)
    (h : reachesWrite c = true) : (runAttempt c s w).2.2 = w := by
  cases c with
  | setEffect name =>
      simp only [reachesWrite, Option.isSome_iff_exists] at h
      obtain ⟨v, hv⟩ := h
      cases w <;> simp [runAttempt, hv, writeStep]
  | turnOn => cases w <;> rfl
  | turnOff => cases w <;> rfl
  | setColor rgb => cases w <;> rfl
  | setBrightness b => cases w <;> rfl
  | setEffectSpeed sp => cases w <;> rfl

/-- A failing attempt leaves exactly the pre-write state: only the
statements before `_write` have mutated the reported state. -/
theorem runAttempt_fail_state (c : Command) (s : DeviceState)
    (w : Option BleError) (e : BleError)
    (h : (runAttempt c s w).2.2 = some e) :
    (runAttempt c s w).1 = preWriteState c s := by
  cases c with
  | setEffect name =>
      cases hv : EFFECT_MAP.lookup name with
      | none => simp [runAttempt, hv] at h
      | some v =>
          cases w with
          | none => simp [runAttempt, hv, writeStep] at h
          | some e0 => simp [runAttempt, hv, writeStep, preWriteState]
  | turnOn => cases w <;> first | rfl | simp [runAttempt, writeStep] at h
  | turnOff => cases w <;> first | rfl | simp [runAttempt, writeStep] at h
  | setColor rgb => cases w <;> first | rfl | simp [runAttempt, writeStep] at h
  | setBrightness b => cases w <;> rfl
  | setEffectSpeed sp => cases w <;> rfl

/-- A failing attempt records no successful write. -/
theorem runAttempt_fail_written (c : Command) (s : DeviceState)
    (w : Option BleError) (e : BleError)
    (h : (runAttempt c s w).2.2 = some e) :
    (runAttempt c s w).2.1 = [] := by
  cases c with
  | setEffect name =>
      cases hv : EFFECT_MAP.lookup name with
      | none => simp [runAttempt, hv] at h
      | some v =>
          cases w with
          | none => simp [runAttempt, hv, writeStep] at h
          | some e0 => simp [runAttempt, hv, writeStep]
  | turnOn => cases w <;> first | rfl | simp [runAttempt, writeStep] at h
  | turnOff => cases w <;> first | rfl | simp [runAttempt, writeStep] at h
  | setColor rgb => cases w <;> first | rfl | simp [runAttempt, writeStep] at h
  | setBrightness b => cases w <;> first | rfl | simp [runAttempt, writeStep] at h
  | setEffectSpeed sp => cases w <;> first | rfl | simp [runAttempt, writeStep] at h

/-- The pre-write mutation is idempotent: re-running the statements before
the write on an already-mutated state changes nothing. -/
theorem preWriteState_idem (c : Command) (s : DeviceState) :
    preWriteState c (preWriteState c s) = preWriteState c s := by
  cases c <;> rfl

/-- If a wrapped invocation ends by raising, the reported state it leaves is
exactly the pre-write state of the state it started from: every executed
attempt failed, and each failing attempt applies only the (idempotent)
pre-write mutation. -/
theorem runCmdAux_raised_state (c : Command) (werr : Nat → Option BleError) :
    ∀ (remaining attempt : Nat) (sleeps : List Nat) (s : DeviceState)
      (wr : List (List Nat)) (e : BleError),
      (runCmdAux c werr remaining attempt sleeps s wr).outcome = .raised e →
      (runCmdAux c werr remaining attempt sleeps s wr).state =
        preWriteState c s := by
  intro remaining
  induction remaining with
  | zero => intro attempt sleeps s wr e h; simp [runCmdAux] at h
  | succ rem ih =>
      intro attempt sleeps s wr e h
      simp only [runCmdAux] at h ⊢
      cases hres : (runAttempt c s (werr attempt)).2.2 with
      | none => simp [hres] at h
      | some e0 =>
          cases e0 with
          | notFound =>
              simp only [hres]
              exact runAttempt_fail_state c s (werr attempt) .notFound hres
          | dbus =>
              simp only [hres] at h ⊢
              by_cases hlast : (attempt == DEFAULT_ATTEMPTS - 1) = true
              · simp only [hlast, if_pos rfl]
                exact runAttempt_fail_state c s (werr attempt) .dbus hres
              · simp only [Bool.not_eq_true] at hlast
                simp only [hlast] at h ⊢
                rw [if_neg Bool.false_ne_true] at h ⊢
                have := ih (attempt + 1) (sleeps ++ [BLEAK_BACKOFF_TIME_MS])
                  (runAttempt c s (werr attempt)).1
                  (wr ++ (runAttempt c s (werr attempt)).2.1) e h
                rw [this, runAttempt_fail_state c s (werr attempt) .dbus hres,
                  preWriteState_idem]
          | bleak =>
              simp only [hres] at h ⊢
              by_cases hlast : (attempt == DEFAULT_ATTEMPTS - 1) = true
              · simp only [hlast, if_pos rfl]
                exact runAttempt_fail_state c s (werr attempt) .bleak hres
              · simp only [Bool.not_eq_true] at hlast
                simp only [hlast] at h ⊢
                rw [if_neg Bool.false_ne_true] at h ⊢
                have := ih (attempt + 1) (sleeps ++ [BLEAK_BACKOFF_TIME_MS])
                  (runAttempt c s (werr attempt)).1
                  (wr ++ (runAttempt c s (werr attempt)).2.1) e h
                rw [this, runAttempt_fail_state c s (werr attempt) .bleak hres,
                  preWriteState_idem]

/-- A key absent from the keys of an association list never looks up. -/
theorem lookup_none_of_not_mem (l : List (String × Nat)) (a : String)
    (h : a ∉ l.map Prod.fst) : l.lookup a = none := by
  induction l with
  | nil => rfl
  | cons p rest ih =>
      simp only [List.map_cons, List.mem_cons] at h
      push_neg at h
      obtain ⟨h1, h2⟩ := h
      simp only [List.lookup]
      rw [show (a == p.1) = false from beq_eq_false_iff_ne.mpr h1]
      exact ih h2

/-- With an acknowledged write, an attempt raises nothing. -/
theorem runAttempt_none_err (c : Command) (s : DeviceState) :
    (runAttempt c s none).2.2 = none := by
  cases c with
  | setEffect name =>
      cases hv : EFFECT_MAP.lookup name <;> simp [runAttempt, hv, writeStep]
  | turnOn => rfl
  | turnOff => rfl
  | setColor rgb => rfl
  | setBrightness b => rfl
  | setEffectSpeed sp => rfl

/-- A command whose `_write` is acknowledged on the first attempt finishes
in one attempt with no backoff: its trace is that single attempt's. -/
theorem runCmd_ok (c : Command) (st : DeviceState) :
    runCmd c (fun _ => none) st =
      ⟨(runAttempt c st none).1, (runAttempt c st none).2.1, 1, [], .success⟩ := by
  have h := runAttempt_none_err c st
  simp [runCmd, runCmdAux, h]

set_option maxRecDepth 40000 in
/-- On the whole input range 0–255, the source brightness byte (double
arithmetic) coincides with the exact formula `min(⌊6 b / 100⌋, 15)`. -/
theorem brightness_byte_eq : ∀ b : Nat, b < 256 →
    brightness_byte b = min (6 * b / 100) 15 := by decide

set_option maxRecDepth 40000 in
/-- On the input range 0–100, the source speed byte (double arithmetic)
coincides with the exact floor `⌊51 s / 20⌋` except at `s = 100`, where the
double product `100 * 2.55` rounds below `255` and truncates to `254`. -/
theorem speed_byte_eq : ∀ s : Nat, s < 101 →
    speed_byte s = if s = 100 then 254 else 51 * s / 20 := by decide

set_option maxRecDepth 100000 in
set_option maxHeartbeats 1000000 in
/-- The source speed byte is monotone on 0–100. -/
theorem speed_byte_mono : ∀ t : Nat, t < 101 → ∀ s : Nat, s ≤ t →
    speed_byte s ≤ speed_byte t := by decide


/-! ## Claim theorems -/

/-- Claim C1, counterexample: the claim that a failed operation leaves every
reported-state field unchanged is false.  With every attempt's write raising
a transient transport error, `set_rgb_color (10, 20, 30)` exhausts its
retries and raises, yet the reported RGB color has been changed (the
assignment on line 153 precedes the write). -/
theorem c1_counterexample :
    (runCmd (.setColor (10, 20, 30)) (fun _ => some .bleak) initialState).outcome =
      .raised .bleak ∧
    (runCmd (.setColor (10, 20, 30)) (fun _ => some .bleak) initialState).state ≠
      initialState := by
  decide

/-- Claim C1, amended: if a command operation fails (raises after exhausting
retries, or raises the permanent addressing failure), the reported state it
leaves is exactly the pre-write state: every reported-state field is
unchanged, except that `setColor` has already stored the requested RGB
triple and `setBrightness` the requested brightness, since those two
assignments precede the write in the source; in particular the on/off flag,
effect name and color mode are never changed by a failed operation, and
`setColor` never clears the effect without a successful write. -/
theorem c1_failure_frame (c : Command) (s : DeviceState)
    (werr : Nat → Option BleError) (e : BleError)
    (h : (runCmd c werr s).outcome = .raised e) :
    (runCmd c werr s).state = preWriteState c s :=
  runCmdAux_raised_state c werr DEFAULT_ATTEMPTS 0 [] s [] e h

/-- Claim C1, witness: `set_brightness 100` with every write raising a bus
error raises after its retries, and the final reported state is the
pre-write state (brightness already updated, everything else unchanged). -/
theorem c1_witness :
    (runCmd (.setBrightness 100) (fun _ => some .dbus) initialState).state =
      preWriteState (.setBrightness 100) initialState :=
  c1_failure_frame (.setBrightness 100) initialState (fun _ => some .dbus)
    .dbus (by decide)

/-- Claim C2, counterexample: `set_effect_speed 50` writes wire byte
`0x7f = 127` (Python `int` truncates `50 * 2.55`), while the claimed
formula `clamp(round(s * 2.55), 0, 255)` gives `128 = 0x80` at 50. -/
theorem c2_counterexample :
    (runCmd (.setEffectSpeed 50) (fun _ => none) initialState).written =
      [[0x55, 0x04, 0x04, 127]] ∧
    spec_speed_byte 50 = 128 := by
  decide

/-- Claim C2, amended: for every speed 0–100, `set_effect_speed s` writes
the 4-byte packet `55 04 04 S` with `S = int(s * 2.55)` computed in double
arithmetic and clamped to 0–255; this equals `⌊51 s / 20⌋` (truncation, not
rounding) for every s except 100, where the double product rounds just
below 255 and truncates to 254.  In particular `set_effect_speed 50` writes
`0x7f`, and the wire byte is monotone non-decreasing in the speed. -/
theorem c2_speed_packet (st : DeviceState) (s t : Nat) (hst : s ≤ t)
    (ht : t ≤ 100) :
    (runCmd (.setEffectSpeed s) (fun _ => none) st).written =
      [[0x55, 0x04, 0x04, speed_byte s]] ∧
    speed_byte s = (if s = 100 then 254 else 51 * s / 20) ∧
    speed_byte s ≤ speed_byte t := by
  refine ⟨?_, ?_, ?_⟩
  · rw [runCmd_ok]; rfl
  · exact speed_byte_eq s (Nat.lt_succ_of_le (hst.trans ht))
  · exact speed_byte_mono t (Nat.lt_succ_of_le ht) s hst

/-- Claim C2, witness: the amended statement evaluated at speeds 50 and 60. -/
theorem c2_witness :
    (runCmd (.setEffectSpeed 50) (fun _ => none) initialState).written =
      [[0x55, 0x04, 0x04, speed_byte 50]] ∧
    speed_byte 50 = (if 50 = 100 then 254 else 51 * 50 / 20) ∧
    speed_byte 50 ≤ speed_byte 60 :=
  c2_speed_packet initialState 50 60 (by decide) (by decide)

/-- Claim C3, counterexample: the claim that the idle-disconnect path clears
all four characteristic references is false: on a connected state holding
all four references, `_execute_disconnect` leaves the manufacturer,
firmware and model references in place (lines 244–245 clear only `_client`
and `_write_uuid`). -/
theorem c3_counterexample :
    (execute_disconnect ⟨some true, some 1, some 2, some 3, some 4, false⟩).manufacturer_name_char ≠ none ∧
    (execute_disconnect ⟨some true, some 1, some 2, some 3, some 4, false⟩).firmware_revision_char ≠ none ∧
    (execute_disconnect ⟨some true, some 1, some 2, some 3, some 4, false⟩).model_number_char ≠ none := by
  decide

/-- Claim C3, amended: after `_execute_disconnect` runs, the transport
handle and the write-characteristic reference are cleared, but the three
info characteristic references (manufacturer, firmware, model) are left
untouched. -/
theorem c3_disconnect_clears (s : LinkState) :
    (execute_disconnect s).client = none ∧
    (execute_disconnect s).write_uuid = none ∧
    (execute_disconnect s).manufacturer_name_char = s.manufacturer_name_char ∧
    (execute_disconnect s).firmware_revision_char = s.firmware_revision_char ∧
    (execute_disconnect s).model_number_char = s.model_number_char := by
  cases hc : s.client with
  | none => simp [execute_disconnect, hc]
  | some b => cases b <;> simp [execute_disconnect, hc]

/-- Claim C4: if a command reaches its write and every attempt raises a
recognized transient transport error (bus-error subclass or other), exactly
3 attempts are made, exactly 2 backoff sleeps of 250 ms occur, and the 3rd
attempt's error is re-raised to the caller. -/
theorem c4_retry_exhaustion (c : Command) (s : DeviceState)
    (werr : Nat → Option BleError) (e0 e1 e2 : BleError)
    (hc : reachesWrite c = true)
    (h0 : werr 0 = some e0) (hn0 : e0 ≠ .notFound)
    (h1 : werr 1 = some e1) (hn1 : e1 ≠ .notFound)
    (h2 : werr 2 = some e2) (hn2 : e2 ≠ .notFound) :
    (runCmd c werr s).attempts = 3 ∧
    (runCmd c werr s).sleeps = [BLEAK_BACKOFF_TIME_MS, BLEAK_BACKOFF_TIME_MS] ∧
    (runCmd c werr s).outcome = .raised e2 := by
  have a0 : ∀ st : DeviceState, (runAttempt c st (werr 0)).2.2 = some e0 :=
    fun st => (runAttempt_err c st (werr 0) hc).trans h0
  have a1 : ∀ st : DeviceState, (runAttempt c st (werr 1)).2.2 = some e1 :=
    fun st => (runAttempt_err c st (werr 1) hc).trans h1
  have a2 : ∀ st : DeviceState, (runAttempt c st (werr 2)).2.2 = some e2 :=
    fun st => (runAttempt_err c st (werr 2) hc).trans h2
  cases e0 <;> cases e1 <;> cases e2 <;>
    first
    | exact absurd rfl hn0
    | exact absurd rfl hn1
    | exact absurd rfl hn2
    | exact ⟨by simp [runCmd, runCmdAux, DEFAULT_ATTEMPTS, a0, a1, a2],
        by simp [runCmd, runCmdAux, DEFAULT_ATTEMPTS, a0, a1, a2],
        by simp [runCmd, runCmdAux, DEFAULT_ATTEMPTS, a0, a1, a2]⟩

/-- Claim C4, witness: `turn_on` with every attempt failing on the bus-error
subclass makes 3 attempts, sleeps twice for 250 ms, and re-raises. -/
theorem c4_witness :
    (runCmd .turnOn (fun _ => some .dbus) initialState).attempts = 3 ∧
    (runCmd .turnOn (fun _ => some .dbus) initialState).sleeps =
      [BLEAK_BACKOFF_TIME_MS, BLEAK_BACKOFF_TIME_MS] ∧
    (runCmd .turnOn (fun _ => some .dbus) initialState).outcome =
      .raised .dbus :=
  c4_retry_exhaustion .turnOn initialState (fun _ => some .dbus)
    .dbus .dbus .dbus rfl rfl (by decide) rfl (by decide) rfl (by decide)

/-- Claim C5: if a command reaches its write and the first attempt raises
the permanent "device not found" addressing failure, it is re-raised
immediately: one attempt, no backoff sleep, no retry. -/
theorem c5_not_found_immediate (c : Command) (s : DeviceState)
    (werr : Nat → Option BleError) (hc : reachesWrite c = true)
    (h0 : werr 0 = some .notFound) :
    (runCmd c werr s).attempts = 1 ∧
    (runCmd c werr s).sleeps = [] ∧
    (runCmd c werr s).outcome = .raised .notFound := by
  have a0 : (runAttempt c s (werr 0)).2.2 = some .notFound :=
    (runAttempt_err c s (werr 0) hc).trans h0
  exact ⟨by simp [runCmd, runCmdAux, a0], by simp [runCmd, runCmdAux, a0],
    by simp [runCmd, runCmdAux, a0]⟩

/-- Claim C5, witness: `turn_off` hitting `BleakNotFoundError` on its first
attempt makes exactly one attempt, sleeps never, and raises it. -/
theorem c5_witness :
    (runCmd .turnOff (fun _ => some .notFound) initialState).attempts = 1 ∧
    (runCmd .turnOff (fun _ => some .notFound) initialState).sleeps = [] ∧
    (runCmd .turnOff (fun _ => some .notFound) initialState).outcome =
      .raised .notFound :=
  c5_not_found_immediate .turnOff initialState (fun _ => some .notFound)
    rfl rfl

/-- Claim C6: for every brightness 0–255, `set_brightness b` writes the
5-byte packet `55 03 01 FF B` with `B = min(⌊b * 0.06⌋, 15)` (the double
arithmetic agrees with the exact formula `min(⌊6 b / 100⌋, 15)` on this
whole range), and the wire byte is monotone non-decreasing in `b`. -/
theorem c6_brightness_packet (st : DeviceState) (b t : Nat) (hbt : b ≤ t)
    (ht : t < 256) :
    (runCmd (.setBrightness b) (fun _ => none) st).written =
      [[0x55, 0x03, 0x01, 0xff, brightness_byte b]] ∧
    brightness_byte b = min (6 * b / 100) 15 ∧
    brightness_byte b ≤ brightness_byte t := by
  refine ⟨?_, ?_, ?_⟩
  · rw [runCmd_ok]; rfl
  · exact brightness_byte_eq b (lt_of_le_of_lt hbt ht)
  · rw [brightness_byte_eq b (lt_of_le_of_lt hbt ht), brightness_byte_eq t ht]
    exact min_le_min (Nat.div_le_div_right (Nat.mul_le_mul_left 6 hbt)) le_rfl

/-- Claim C6, witness: the statement evaluated at brightness 100 and 200. -/
theorem c6_witness :
    (runCmd (.setBrightness 100) (fun _ => none) initialState).written =
      [[0x55, 0x03, 0x01, 0xff, brightness_byte 100]] ∧
    brightness_byte 100 = min (6 * 100 / 100) 15 ∧
    brightness_byte 100 ≤ brightness_byte 200 :=
  c6_brightness_packet initialState 100 200 (by decide) (by decide)

/-- Claim C7: `set_effect` with a name outside the closed set
`"Effect 0"`…`"Effect 9"` performs no wire write, leaves every
reported-state field unchanged, and returns successfully without raising —
whatever the transport would have done. -/
theorem c7_unknown_effect (s : DeviceState) (werr : Nat → Option BleError)
    (name : String) (h : name ∉ EFFECT_MAP.map Prod.fst) :
    runCmd (.setEffect name) werr s = ⟨s, [], 1, [], .success⟩ := by
  have hl : EFFECT_MAP.lookup name = none := lookup_none_of_not_mem _ _ h
  simp [runCmd, runCmdAux, runAttempt, hl]

/-- Claim C7, witness: `set_effect "Rainbow"` is a successful no-op. -/
theorem c7_witness :
    runCmd (.setEffect "Rainbow") (fun _ => none) initialState =
      ⟨initialState, [], 1, [], .success⟩ :=
  c7_unknown_effect initialState (fun _ => none) "Rainbow" (by decide)

/-- Claim C8: from any prior reported state, a successful
`set_rgb_color (r, g, b)` writes the 6-byte packet `55 07 01 R G B`, sets
the reported RGB color to `(r, g, b)`, and resets the reported effect to
"off", regardless of the previously reported effect. -/
theorem c8_set_color (st : DeviceState) (r g b : Nat) :
    runCmd (.setColor (r, g, b)) (fun _ => none) st =
      ⟨{ st with rgb_color := (r, g, b), effect := EFFECT_OFF },
        [[0x55, 0x07, 0x01, r, g, b]], 1, [], .success⟩ := by
  rw [runCmd_ok]; rfl

/-- Claim C10: a successful `set_effect_speed` leaves every reported-state
field exactly as before the call: the resulting trace's state is the input
state itself (no reported-state field mirrors the effect speed). -/
theorem c10_speed_frame (st : DeviceState) (sp : Nat) :
    runCmd (.setEffectSpeed sp) (fun _ => none) st =
      ⟨st, [[0x55, 0x04, 0x04, speed_byte sp]], 1, [], .success⟩ := by
  rw [runCmd_ok]; rfl

/-! ## Claim C9: single in-flight connect under concurrency -/

/-- The invariant holds initially. -/
theorem connInv_init (n : Nat) : connInv (cinit n) := by
  refine ⟨?_, ?_, ?_, ?_, ?_, ?_, ?_⟩ <;> simp [cinit]

/-- Every step of the `_ensure_connected` protocol preserves the invariant. -/
theorem connInv_step {n : Nat} {s t : CState n} (h : CStep n s t)
    (hi : connInv s) : connInv t := by
  obtain ⟨h1, h2, h3, h4, h5, h6, h7⟩ := hi
  cases h with
  | fastHit i hpc hcl =>
      dsimp only [connInv]
      refine ⟨h1, h2, ?_, ?_, ?_, ?_, ?_⟩
      · intro j hj
        by_cases hji : j = i
        · subst hji; simp [Function.update_same] at hj
        · rw [Function.update_noteq hji] at hj; exact h3 j hj
      · intro j hj
        by_cases hji : j = i
        · subst hji; simp [Function.update_same] at hj
        · rw [Function.update_noteq hji] at hj; exact h4 j hj
      · intro j hj
        by_cases hji : j = i
        · subst hji; simp [Function.update_same] at hj
        · rw [Function.update_noteq hji] at hj; exact h5 j hj
      · intro hc
        rcases h6 hc with hcl2 | ⟨j, hj⟩
        · exact Or.inl hcl2
        · refine Or.inr ⟨j, ?_⟩
          have hji : j ≠ i := by
            intro e; rw [e, hpc] at hj; cases hj
          rw [Function.update_noteq hji]; exact hj
      · intro j hj
        by_cases hji : j = i
        · exact h2 hcl
        · rw [Function.update_noteq hji] at hj; exact h7 j hj
  | fastMiss i hpc hcl =>
      dsimp only [connInv]
      refine ⟨h1, h2, ?_, ?_, ?_, ?_, ?_⟩
      · intro j hj
        by_cases hji : j = i
        · subst hji; simp [Function.update_same] at hj
        · rw [Function.update_noteq hji] at hj; exact h3 j hj
      · intro j hj
        by_cases hji : j = i
        · subst hji; simp [Function.update_same] at hj
        · rw [Function.update_noteq hji] at hj; exact h4 j hj
      · intro j hj
        by_cases hji : j = i
        · subst hji; simp [Function.update_same] at hj
        · rw [Function.update_noteq hji] at hj; exact h5 j hj
      · intro hc
        rcases h6 hc with hcl2 | ⟨j, hj⟩
        · exact Or.inl hcl2
        · refine Or.inr ⟨j, ?_⟩
          have hji : j ≠ i := by
            intro e; rw [e, hpc] at hj; cases hj
          rw [Function.update_noteq hji]; exact hj
      · intro j hj
        by_cases hji : j = i
        · subst hji; simp [Function.update_same] at hj
        · rw [Function.update_noteq hji] at hj; exact h7 j hj
  | acquire i hpc hlk =>
      dsimp only [connInv]
      refine ⟨h1, h2, ?_, ?_, ?_, ?_, ?_⟩
      · intro j hj
        by_cases hji : j = i
        · subst hji; rfl
        · rw [Function.update_noteq hji] at hj
          exact absurd (hlk ▸ h3 j hj) (by simp)
      · intro j hj
        by_cases hji : j = i
        · subst hji; simp [Function.update_same] at hj
        · rw [Function.update_noteq hji] at hj; exact h4 j hj
      · intro j hj
        by_cases hji : j = i
        · subst hji; simp [Function.update_same] at hj
        · rw [Function.update_noteq hji] at hj; exact h5 j hj
      · intro hc
        rcases h6 hc with hcl2 | ⟨j, hj⟩
        · exact Or.inl hcl2
        · exact absurd (hlk ▸ h3 j (Or.inr (Or.inl hj))) (by simp)
      · intro j hj
        by_cases hji : j = i
        · subst hji; simp [Function.update_same] at hj
        · rw [Function.update_noteq hji] at hj; exact h7 j hj
  | recheckHit i hpc hcl =>
      dsimp only [connInv]
      refine ⟨h1, h2, ?_, ?_, ?_, ?_, ?_⟩
      · intro j hj
        by_cases hji : j = i
        · subst hji; simp [Function.update_same] at hj
        · rw [Function.update_noteq hji] at hj
          have := h3 j hj
          have hli := h3 i (Or.inl hpc)
          rw [this] at hli
          exact absurd (Option.some.inj hli) hji
      · intro j hj
        by_cases hji : j = i
        · subst hji; simp [Function.update_same] at hj
        · rw [Function.update_noteq hji] at hj
          exact absurd hcl (by simp [(h4 j hj).1])
      · intro j hj
        by_cases hji : j = i
        · subst hji; simp [Function.update_same] at hj
        · rw [Function.update_noteq hji] at hj; exact h5 j hj
      · intro _; exact Or.inl hcl
      · intro j hj
        by_cases hji : j = i
        · exact h2 hcl
        · rw [Function.update_noteq hji] at hj; exact h7 j hj
  | recheckMiss i hpc hcl =>
      dsimp only [connInv]
      have hz : s.connects = 0 := by
        rcases Nat.le_one_iff_eq_zero_or_eq_one.mp h1 with hz | ho
        · exact hz
        · rcases h6 ho with hcl2 | ⟨j, hj⟩
          · rw [hcl2] at hcl; cases hcl
          · have hlj := h3 j (Or.inr (Or.inl hj))
            have hli := h3 i (Or.inl hpc)
            rw [hlj] at hli
            have hji2 : j = i := Option.some.inj hli
            rw [hji2, hpc] at hj
            cases hj
      refine ⟨?_, ?_, ?_, ?_, ?_, ?_, ?_⟩
      · simp [hz]
      · intro hcl2; rw [hcl] at hcl2; cases hcl2
      · intro j hj
        by_cases hji : j = i
        · subst hji; exact h3 j (Or.inl hpc)
        · rw [Function.update_noteq hji] at hj; exact h3 j hj
      · intro j hj
        by_cases hji : j = i
        · subst hji; exact ⟨hcl, by simp [hz]⟩
        · rw [Function.update_noteq hji] at hj
          exact absurd (h4 j hj).2 (by simp [hz])
      · intro j hj
        by_cases hji : j = i
        · subst hji; simp [Function.update_same] at hj
        · rw [Function.update_noteq hji] at hj
          exact absurd (h5 j hj) (by simp [hcl])
      · intro _
        exact Or.inr ⟨i, by rw [Function.update_same]⟩
      · intro j hj
        by_cases hji : j = i
        · subst hji; simp [Function.update_same] at hj
        · rw [Function.update_noteq hji] at hj
          exact absurd (h7 j hj) (by simp [hz])
  | connected i hpc =>
      dsimp only [connInv]
      have hfc := h4 i hpc
      refine ⟨h1, fun _ => hfc.2, ?_, ?_, ?_, fun _ => Or.inl rfl, ?_⟩
      · intro j hj
        by_cases hji : j = i
        · subst hji; exact h3 j (Or.inr (Or.inl hpc))
        · rw [Function.update_noteq hji] at hj; exact h3 j hj
      · intro j hj
        by_cases hji : j = i
        · subst hji; simp [Function.update_same] at hj
        · rw [Function.update_noteq hji] at hj
          have hlj := h3 j (Or.inr (Or.inl hj))
          have hli := h3 i (Or.inr (Or.inl hpc))
          rw [hlj] at hli
          exact absurd (Option.some.inj hli) hji
      · intro j _; rfl
      · intro j hj
        by_cases hji : j = i
        · subst hji; simp [Function.update_same] at hj
        · rw [Function.update_noteq hji] at hj; exact h7 j hj
  | release i hpc =>
      dsimp only [connInv]
      have hcl := h5 i hpc
      refine ⟨h1, h2, ?_, ?_, ?_, fun _ => Or.inl hcl, ?_⟩
      · intro j hj
        by_cases hji : j = i
        · subst hji; simp [Function.update_same] at hj
        · rw [Function.update_noteq hji] at hj
          have hlj := h3 j hj
          have hli := h3 i (Or.inr (Or.inr hpc))
          rw [hlj] at hli
          exact absurd (Option.some.inj hli) hji
      · intro j hj
        by_cases hji : j = i
        · subst hji; simp [Function.update_same] at hj
        · rw [Function.update_noteq hji] at hj
          exact absurd hcl (by simp [(h4 j hj).1])
      · intro j hj
        by_cases hji : j = i
        · subst hji; simp [Function.update_same] at hj
        · rw [Function.update_noteq hji] at hj; exact h5 j hj
      · intro j hj
        by_cases hji : j = i
        · exact h2 hcl
        · rw [Function.update_noteq hji] at hj; exact h7 j hj

/-- The invariant holds in every reachable state. -/
theorem connInv_reachable {n : Nat} {s : CState n}
    (h : Relation.ReflTransGen (CStep n) (cinit n) s) : connInv s := by
  induction h with
  | refl => exact connInv_init n
  | tail _ hbc ih => exact connInv_step hbc ih

/-- Claim C9: when `n ≥ 1` tasks run `_ensure_connected` concurrently
against an instance that starts disconnected, any interleaving in which all
tasks have returned has made exactly one `establish_connection` call: the
lock with its check-outside/check-again-inside pattern collapses concurrent
callers into a single in-flight connect. -/
theorem c9_single_connect (n : Nat) (s : CState n) (hn : 0 < n)
    (hr : Relation.ReflTransGen (CStep n) (cinit n) s)
    (hdone : ∀ i, s.pcs i = .done) : s.connects = 1 := by
  obtain ⟨-, -, -, -, -, -, h7⟩ := connInv_reachable hr
  exact h7 ⟨0, hn⟩ (hdone ⟨0, hn⟩)

/-- An explicit two-task interleaving for the C9 witness: task 0 finds the
instance disconnected, takes the lock and connects while task 1 also fails
the fast-path check and queues on the lock, then task 1 re-checks inside
the lock and finds the client already present. -/
def cw1 : CState 2 := { cinit 2 with pcs := Function.update (cinit 2).pcs 0 .waitLock }

/-- Task 0 acquires the lock. -/
def cw2 : CState 2 := { cw1 with lock := some 0, pcs := Function.update cw1.pcs 0 .recheck }

/-- Task 1 fails the unlocked fast-path check. -/
def cw3 : CState 2 := { cw2 with pcs := Function.update cw2.pcs 1 .waitLock }

/-- Task 0 re-checks under the lock, still disconnected: it calls
`establish_connection`. -/
def cw4 : CState 2 :=
  { cw3 with connects := cw3.connects + 1, pcs := Function.update cw3.pcs 0 .connecting }

/-- The connection attempt completes and task 0 stores the client. -/
def cw5 : CState 2 := { cw4 with client := true, pcs := Function.update cw4.pcs 0 .haveClient }

/-- Task 0 releases the lock and returns. -/
def cw6 : CState 2 := { cw5 with lock := none, pcs := Function.update cw5.pcs 0 .done }

/-- Task 1 acquires the lock. -/
def cw7 : CState 2 := { cw6 with lock := some 1, pcs := Function.update cw6.pcs 1 .recheck }

/-- Task 1 re-checks under the lock: connected, so it returns without a
second `establish_connection` call. -/
def cw8 : CState 2 := { cw7 with lock := none, pcs := Function.update cw7.pcs 1 .done }

/-- Claim C9, witness: in the explicit two-task interleaving ending in
`cw8`, exactly one `establish_connection` call was made. -/
theorem c9_witness : cw8.connects = 1 :=
  c9_single_connect 2 cw8 (by decide)
    (Relation.ReflTransGen.head (CStep.fastMiss (cinit 2) 0 (by decide) (by decide))
      (Relation.ReflTransGen.head (CStep.acquire cw1 0 (by decide) (by decide))
        (Relation.ReflTransGen.head (CStep.fastMiss cw2 1 (by decide) (by decide))
          (Relation.ReflTransGen.head (CStep.recheckMiss cw3 0 (by decide) (by decide))
            (Relation.ReflTransGen.head (CStep.connected cw4 0 (by decide))
              (Relation.ReflTransGen.head (CStep.release cw5 0 (by decide))
                (Relation.ReflTransGen.head (CStep.acquire cw6 1 (by decide) (by decide))
                  (Relation.ReflTransGen.head (CStep.recheckHit cw7 1 (by decide) (by decide))
                    Relation.ReflTransGen.refl))))))))
    (by decide)
